/-
Verification development for `trajectory_following/trajectory_following.py`
(class `TrajectoryFollower`).

The Python class is shallowly embedded below.  Conventions:

* Machine floats are modelled as real numbers (`ℝ`).
* A joint configuration and a 3D point are both lists of reals (`Vec`).
* A 4x4 homogeneous transform is `Mat4 := Fin 4 → Fin 4 → ℝ`.
* External collaborators (differentiable forward kinematics, the C-SDF
  obstacle-clearance model, the autodiff engine, and the handshake clamp)
  are modelled as opaque-function *fields* of the `Follower` state, as the
  spec places them outside the verified core.
* Fallible code paths return `Option`: in particular, in skeleton mode
  (`control_points_json is None`) with a grasped object attached, the
  source raises a runtime shape error (`torch.hstack` of a rank-3 tensor of
  stored 4x4 transforms with a rank-2 column of ones), so skeleton-mode
  extraction is `none` exactly when an object is attached.
* The final `assert not np.isnan(...)` of `follow_trajectory` is modelled
  with an abstract NaN test `isNaN : ℝ → Bool` (reals have no NaN value);
  a failing assertion is `none`.
-/
import Mathlib

noncomputable section

/-- A vector of reals: either a joint configuration or a 3D point. -/
abbrev Vec := List ℝ

/-- A 3D point (same representation as a configuration). -/
abbrev Point := Vec

/-- Elementwise subtraction (torch broadcasting on equal shapes). -/
def vsub (a b : Vec) : Vec := List.zipWith (fun x y => x - y) a b

/-- Elementwise addition. -/
def vadd (a b : Vec) : Vec := List.zipWith (fun x y => x + y) a b

/-- Sum of squares of the entries of a vector. -/
def sqnorm (v : Vec) : ℝ := (v.map (fun x => x ^ 2)).sum

/-- Euclidean norm, `torch.linalg.norm`. -/
def vnorm (v : Vec) : ℝ := Real.sqrt (sqnorm v)

/-- A 4x4 homogeneous transform matrix. -/
def Mat4 := Fin 4 → Fin 4 → ℝ

/-- Matrix product of two 4x4 transforms (`torch.matmul` / `@`). -/
def matMul (A B : Mat4) : Mat4 := fun i j => ∑ k, A i k * B k j

/-- Translation component of a homogeneous transform: column 3, rows 0..2
(`get_matrix()[:, :3, 3]`). -/
def translationOf (m : Mat4) : Point := [m 0 3, m 1 3, m 2 3]

/-- The 4x4 identity transform. -/
def idMat : Mat4 := fun i j => if i = j then 1 else 0

/-- Homogeneous transform with identity rotation and translation `p`,
as built point-by-point in `attach_to_gripper`
(`object_transforms[i, :3, :3] = I; object_transforms[i, :3, 3] = p;
object_transforms[i, 3, 3] = 1`, all other entries zero-initialized). -/
def pointTransform (p : Point) : Mat4 := fun i j =>
  if j = 3 then
    (if i = 0 then p.getD 0 0 else if i = 1 then p.getD 1 0
     else if i = 2 then p.getD 2 0 else 1)
  else if i = j then 1 else 0

/-- The object-type tag `"pcd"` used by `attach_to_gripper`. -/
def pcdType : String := "pcd"

/-- Default link name used when a list of link names is unexpectedly empty. -/
def noLink : String := ""

/-- Shallow embedding of the mutable state of a `TrajectoryFollower`
instance, together with its external collaborators.

Field correspondence with the Python attributes:
* `controlPoints` ~ `self.control_points` when `self._control_points_json`
  is not `None` (mesh mode); `none` models the skeleton mode.
* `controlPointsNumber` ~ `self._control_points_number`.
* `linkSkeleton` ~ `self._link_skeleton`.
* `fkLink` ~ `self.differentiable_model.forward_kinematics(state,
  end_only=False)[link].get_matrix()` (robot-base frame, per link name).
* `fkEE` ~ `self.differentiable_model.forward_kinematics(state,
  end_only=True)[0].get_matrix()`.
* `worldToRobotBase` ~ `self._world_to_robot_base`.
* `csdfForward` ~ `self.csdf.forward` (per configuration scalar).
* `csdfComputeDistances` ~ `self.csdf.compute_distances` (per
  configuration scalar).
* `collision_threshold` ~ `self.collision_threshold`.
* `consider_obstacle_collisions` ~ `self._consider_obstacle_collisions`.
* `trajectory` ~ `self._trajectory`.
* `trajSkelPoints` ~ `self._trajectory_skeleton_control_points`.
* `trajSkelDistances` ~ `self._trajectory_skeleton_control_points_distances`.
* `graspedNominal` ~ `self._grasped_object_nominal_control_points`
  (a batch of 4x4 transforms, as stored by `attach_to_gripper`).
* `graspedGraspT` ~ `self._grasped_object_grasp_T_object`.
* `Hhandshake` ~ `self.H_handshake`.  Modelled from the spec: the module
  `trajectory_following_handshake` is not part of the sources; §6 of the
  spec describes it as `clamp(proposed_configuration, human_configuration)
  → configuration`, a pure function. -/
structure Follower where
  controlPoints : Option (List (String × List Mat4))
  controlPointsNumber : ℕ
  linkSkeleton : List String
  fkLink : Vec → String → Mat4
  fkEE : Vec → Mat4
  worldToRobotBase : Mat4
  csdfForward : List Point → ℝ
  csdfComputeDistances : List Point → ℝ
  collision_threshold : ℝ
  consider_obstacle_collisions : Bool
  trajectory : List Vec
  trajSkelPoints : List (List Point)
  trajSkelDistances : List ℝ
  graspedNominal : Option (List Mat4)
  graspedGraspT : Option Mat4
  Hhandshake : Option (Vec → Vec → Vec)

/-- Embedding of `TrajectoryFollower.compute_ee_pose`:
`self._world_to_robot_base @ forward_kinematics(state, end_only=True)`. -/
def compute_ee_pose (f : Follower) (state : Vec) : Mat4 :=
  matMul f.worldToRobotBase (f.fkEE state)

/-- The skeleton-point loop of `_get_skeleton_control_points`:
for each link of `self._link_skeleton`, the translation component of the
link transform returned by forward kinematics (robot-base frame; the
source does not compose with `self._world_to_robot_base` here). -/
def skeletonBase (f : Follower) (state : Vec) : List Point :=
  f.linkSkeleton.map (fun ln => translationOf (f.fkLink state ln))

/-- Embedding of `TrajectoryFollower._get_skeleton_control_points` for one
configuration.  When `self._grasped_object_grasp_T_object is not None` the
source computes `torch.hstack((self._grasped_object_nominal_control_points,
ones))` where the stored nominal control points are a rank-3 batch of 4x4
transforms, so `torch.hstack` raises a rank-mismatch `RuntimeError`; that
fallible branch is `none`. -/
def get_skeleton_control_points (f : Follower) (state : Vec) :
    Option (List Point) :=
  match f.graspedGraspT with
  | none => some (skeletonBase f state)
  | some _ => none

/-- The per-link loop of `_get_mesh_control_points`: every stored control
point transform is composed as
`world_to_robot_base @ (link_transform @ ctrl_point_transform)` and its
translation is taken. -/
def meshBasePoints (f : Follower) (cps : List (String × List Mat4))
    (state : Vec) : List Point :=
  cps.flatMap (fun p =>
    p.2.map (fun t =>
      translationOf (matMul f.worldToRobotBase (matMul (f.fkLink state p.1) t))))

/-- Embedding of `TrajectoryFollower._get_mesh_control_points` for one
configuration.  The end-effector pose is the transform of the last link of
`self._link_skeleton`; when an object is attached, each stored nominal
transform `M` contributes the translation of
`(world_to_robot_base @ ee_pose) @ (grasp_T_object @ M)`. -/
def get_mesh_control_points (f : Follower) (cps : List (String × List Mat4))
    (state : Vec) : List Point :=
  let base := meshBasePoints f cps state
  let eePose := f.fkLink state (f.linkSkeleton.getLast?.getD noLink)
  match f.graspedGraspT with
  | none => base
  | some graspT =>
      base ++ (f.graspedNominal.getD []).map (fun M =>
        translationOf (matMul (matMul f.worldToRobotBase eePose) (matMul graspT M)))

/-- Per-coordinate linear resampling along the element index: embedding of
`torch.nn.functional.interpolate(xs.transpose(1,2), size=n, mode='linear',
align_corners=True).transpose(1,2)`.  Output index `j` reads the source
coordinate `j·(len-1)/(n-1)` and blends the two neighbouring entries. -/
def resample (xs : List Vec) (n : ℕ) : List Vec :=
  (List.range n).map (fun j =>
    let pos : ℝ := (j * (xs.length - 1) : ℕ) / ((n - 1 : ℕ) : ℝ)
    let k : ℕ := ⌊pos⌋₊
    let t : ℝ := pos - k
    List.zipWith (fun a b => a + t * (b - a)) (xs.getD k [])
      (xs.getD (k + 1) (xs.getD k [])))

/-- Embedding of `TrajectoryFollower._get_control_points`: in mesh mode the
dense and skeleton point sets coincide; in skeleton mode the dense set is
the skeleton set resampled to `self._control_points_number` points. -/
def get_control_points (f : Follower) (state : Vec) :
    Option (List Point × List Point) :=
  match f.controlPoints with
  | some cps =>
      let c := get_mesh_control_points f cps state
      some (c, c)
  | none =>
      (get_skeleton_control_points f state).map (fun skel =>
        (skel, resample skel f.controlPointsNumber))

/-- Batch extraction of trajectory skeleton control points, as performed by
`update_trajectory`, `attach_to_gripper` and `detach_from_gripper`:
`_get_mesh_control_points(self._trajectory)` in mesh mode, otherwise
`_get_skeleton_control_points(self._trajectory)`. -/
def extractTrajPoints (f : Follower) (traj : List Vec) :
    Option (List (List Point)) :=
  match f.controlPoints with
  | some cps => some (traj.map (get_mesh_control_points f cps))
  | none =>
      match f.graspedGraspT with
      | none => some (traj.map (skeletonBase f))
      | some _ => none

/-- Embedding of `TrajectoryFollower.update_trajectory`: resample the input
to 500 waypoints, recompute the cached skeleton control points and their
distances to the scene point cloud, and store the
`consider_obstacle_collisions` flag. -/
def update_trajectory (f : Follower) (traj : List Vec)
    (considerObstacleCollisions : Bool) : Option Follower :=
  let newTraj := resample traj 500
  (extractTrajPoints f newTraj).map (fun pts =>
    { f with
      trajectory := newTraj
      trajSkelPoints := pts
      trajSkelDistances := pts.map f.csdfComputeDistances
      consider_obstacle_collisions := considerObstacleCollisions })

/-- The per-waypoint validity mask computed by
`TrajectoryFollower.attractive_potential`: a cached waypoint is valid when
every one of its cached skeleton control points is within
`sdf_value + 0.05` (obstacle avoidance on) or `0.1` (off) of the
corresponding current skeleton control point. -/
def validMask (f : Follower) (skel : List Point) (sdfValue : ℝ) : List Bool :=
  f.trajSkelPoints.map (fun wp =>
    let norms := List.zipWith (fun a b => vnorm (vsub a b)) wp skel
    if f.consider_obstacle_collisions then
      norms.all (fun d => decide (d ≤ sdfValue + 0.05))
    else
      norms.all (fun d => decide (d ≤ (0.1 : ℝ))))

/-- The goal selection of `TrajectoryFollower.attractive_potential`:
boolean-mask indexing `self._trajectory[valid_waypoints]` keeps the valid
waypoints in trajectory order, `[-1]` picks the last one, and the caller's
own configuration is the fallback when no waypoint is valid. -/
def selectGoal (f : Follower) (state : Vec) (skel : List Point)
    (sdfValue : ℝ) : Vec :=
  let valid :=
    ((f.trajectory.zip (validMask f skel sdfValue)).filter (fun p => p.2)).map
      Prod.fst
  valid.getLast?.getD state

/-- Embedding of `TrajectoryFollower.attractive_potential`:
`dist = torch.linalg.norm(state - goal); return dist**2`. -/
def attractive_potential (f : Follower) (state : Vec) (skel : List Point)
    (sdfValue : ℝ) : ℝ :=
  (vnorm (vsub state (selectGoal f state skel sdfValue))) ^ 2

/-- Embedding of `TrajectoryFollower.implicit_obstacles`: the C-SDF value of
the control points minus `self.collision_threshold`, returned twice (the
`eef_matrix` argument is accepted and ignored, as in the source). -/
def implicit_obstacles (f : Follower) (controlPoints : List Point)
    (eefMatrix : Mat4) : ℝ × ℝ :=
  let sdfValues := f.csdfForward controlPoints - f.collision_threshold
  (sdfValues, sdfValues)

/-- Embedding of `TrajectoryFollower.forward`: extract control points,
evaluate the clearance, evaluate the attractive potential, and combine them
multiplicatively (or drop the obstacle term when obstacle avoidance is
disabled). -/
def Follower.forward (f : Follower) (currentJa : Vec) : Option ℝ :=
  (get_control_points f currentJa).map (fun sc =>
    let eefM := compute_ee_pose f currentJa
    let sv := implicit_obstacles f sc.2 eefM
    let attractivePotential := attractive_potential f currentJa sc.1 sv.1
    if f.consider_obstacle_collisions then
      (1 + 10 * attractivePotential) / (1 + 2 * sv.2)
    else
      10 * attractivePotential)

/-- The raw joint displacement of `follow_trajectory`:
`-CONTROL_GAIN * potential_field_grad * time_step` with
`CONTROL_GAIN = 0.3`.  The gradient produced by the autodiff collaborator
is taken as an argument. -/
def rawDelta (grad : Vec) (timeStep : ℝ) : Vec :=
  grad.map (fun g => -(0.3 : ℝ) * g * timeStep)

/-- The speed-limited displacement of `follow_trajectory`: when the
Euclidean norm of the raw displacement exceeds `MAX_SPEED = 0.3` it is
rescaled to `MAX_SPEED * delta / norm(delta)`. -/
def boundedDelta (grad : Vec) (timeStep : ℝ) : Vec :=
  let delta := rawDelta grad timeStep
  if vnorm delta > 0.3 then
    delta.map (fun x => (0.3 : ℝ) * x / vnorm delta)
  else
    delta

/-- Embedding of `TrajectoryFollower.follow_trajectory`.  The gradient of
the potential field at the current configuration is supplied by the
autodiff collaborator (`grad`).  The final
`assert not np.isnan(target_joint_angles).any()` is modelled by the
abstract NaN test `isNaN`; an assertion failure is `none`. -/
def follow_trajectory (f : Follower) (grad : Vec)
    (currentJointAngles currentHumanJointAngles : Vec) (timeStep : ℝ)
    (isNaN : ℝ → Bool) : Option Vec :=
  let delta := boundedDelta grad timeStep
  let target :=
    match f.Hhandshake with
    | some clamp => clamp (vadd currentJointAngles delta) currentHumanJointAngles
    | none => vadd currentJointAngles delta
  if target.any isNaN then none else some target

/-- Embedding of `TrajectoryFollower.attach_to_gripper`.  For object type
`"pcd"` the grasp offset is stored and the object points are stored as
homogeneous transforms premultiplied by `T_obj_to_world`
(`self._grasped_object_nominal_control_points = T_obj_to_world @
object_transforms`); no validation of the geometry is performed.  For any
other object type nothing is stored.  In both cases the trajectory caches
are then recomputed and `True` is returned; the recompute is fallible in
the skeleton-with-attachment state (see `extractTrajPoints`), so the whole
operation returns `Option`. -/
def attach_to_gripper (f : Follower) (objectGeometry : List Point)
    (objectType : String) (TeefToObj TobjToWorld : Mat4) :
    Option (Follower × Bool) :=
  let f1 :=
    if objectType = pcdType then
      { f with
        graspedGraspT := some TeefToObj
        graspedNominal :=
          some (objectGeometry.map (fun p =>
            matMul TobjToWorld (pointTransform p))) }
    else f
  (extractTrajPoints f1 f1.trajectory).map (fun pts =>
    ({ f1 with
        trajSkelPoints := pts
        trajSkelDistances := pts.map f1.csdfComputeDistances }, true))

/-- Embedding of `TrajectoryFollower.detach_from_gripper`: clear both
attachment fields, recompute the trajectory caches, return `True` (the
`object_name` and `to` parameters are accepted and unused, as in the
source). -/
def detach_from_gripper (f : Follower) (objectName : String) :
    Option (Follower × Bool) :=
  let f1 := { f with graspedNominal := none, graspedGraspT := none }
  (extractTrajPoints f1 f1.trajectory).map (fun pts =>
    ({ f1 with
        trajSkelPoints := pts
        trajSkelDistances := pts.map f1.csdfComputeDistances }, true))

/-- Squared Euclidean distance between two configurations, following the
wording of the spec (used to state claims against the source-derived
definitions above). -/
def sqEuclid (a b : Vec) : ℝ := sqnorm (vsub a b)

/-- Skeleton control points as the spec's words describe them for claim C4:
the translation component of each skeleton link's *world-frame* pose, i.e.
the forward-kinematics link pose composed with the base-to-world
transform. -/
def specSkeletonWorld (f : Follower) (state : Vec) : List Point :=
  f.linkSkeleton.map (fun ln =>
    translationOf (matMul f.worldToRobotBase (f.fkLink state ln)))

/-- Homogeneous transform with identity rotation and translation
`(x, y, z)`. -/
def transMat (x y z : ℝ) : Mat4 := fun i j =>
  if j = 3 then (if i = 0 then x else if i = 1 then y else if i = 2 then z else 1)
  else if i = j then 1 else 0

/-- A concrete link name for witness instances. -/
def linkA : String := "linkA"

/-- A concrete follower instance used by witness theorems: skeleton mode,
one skeleton link, trivial collaborators, empty trajectory, no attachment,
no handshake clamp. -/
def baseFollower : Follower where
  controlPoints := none
  controlPointsNumber := 1
  linkSkeleton := [linkA]
  fkLink := fun _ _ => idMat
  fkEE := fun _ => idMat
  worldToRobotBase := idMat
  csdfForward := fun _ => 0
  csdfComputeDistances := fun _ => 0
  collision_threshold := 0.01
  consider_obstacle_collisions := true
  trajectory := []
  trajSkelPoints := []
  trajSkelDistances := []
  graspedNominal := none
  graspedGraspT := none
  Hhandshake := none

/-- Concrete follower for the witness of claim C1: obstacle avoidance
disabled, empty trajectory. -/
def followerC1 : Follower :=
  { baseFollower with consider_obstacle_collisions := false }

/-- Concrete follower for the witness of claim C2: obstacle avoidance
disabled, two cached waypoints whose cached skeleton control points are far
from the probe skeleton point. -/
def followerC2 : Follower :=
  { baseFollower with
    consider_obstacle_collisions := false
    trajectory := [[0], [2]]
    trajSkelPoints := [[[9, 9, 9]], [[9, 9, 9]]] }

/-- Concrete follower for the counterexample of claim C4: the base-to-world
transform is a unit translation along x, so base-frame and world-frame link
translations differ. -/
def followerC4 : Follower :=
  { baseFollower with worldToRobotBase := transMat 1 0 0 }

/-- Concrete mesh-mode follower (a control-point geometry description is
present) used by claims C5 and C8. -/
def meshFollower : Follower :=
  { baseFollower with controlPoints := some [(linkA, [idMat])] }

/-- The state produced by attaching an empty point cloud to
`meshFollower` (used by the witnesses of claims C5 and C8). -/
def attachedMeshFollower : Follower :=
  { meshFollower with
    graspedGraspT := some idMat
    graspedNominal := some []
    trajSkelPoints := []
    trajSkelDistances := [] }

/-- The state produced by attaching the one-point cloud `[[1, 2, 3]]` to
`meshFollower`. -/
def attachedObjFollower : Follower :=
  { meshFollower with
    graspedGraspT := some idMat
    graspedNominal := some [matMul idMat (pointTransform [1, 2, 3])]
    trajSkelPoints := []
    trajSkelDistances := [] }

/-- The state produced by detaching again from `attachedObjFollower`. -/
def detachedFollower : Follower :=
  { attachedObjFollower with
    graspedNominal := none
    graspedGraspT := none
    trajSkelPoints := []
    trajSkelDistances := [] }

/-- The qualification predicate of claim C2: cached waypoint `i` qualifies
when every one of its cached skeleton control points lies within Euclidean
distance `clearance + 0.05` (obstacle avoidance enabled) or `0.1`
(disabled) of the corresponding current skeleton control point. -/
def Qualifies (f : Follower) (skel : List Point) (sdfValue : ℝ) (i : ℕ) :
    Prop :=
  ∀ p ∈ (f.trajSkelPoints.getD i []).zip skel,
    vnorm (vsub p.1 p.2) ≤
      (if f.consider_obstacle_collisions then sdfValue + 0.05 else (0.1 : ℝ))

/-- The cached trajectory zipped with its validity mask (the pair list that
boolean-mask indexing `self._trajectory[valid_waypoints]` filters). -/
def maskedTraj (f : Follower) (skel : List Point) (sdfValue : ℝ) :
    List (Vec × Bool) :=
  f.trajectory.zip (validMask f skel sdfValue)

/-! ### Basic lemmas about vector norms -/

theorem sqnorm_nil : sqnorm [] = 0 := rfl

theorem sqnorm_cons (a : ℝ) (v : Vec) : sqnorm (a :: v) = a ^ 2 + sqnorm v := by
  simp [sqnorm]

theorem sqnorm_nonneg (v : Vec) : 0 ≤ sqnorm v := by
  induction v with
  | nil => simp [sqnorm_nil]
  | cons a t ih => rw [sqnorm_cons]; positivity

theorem vnorm_nonneg (v : Vec) : 0 ≤ vnorm v := Real.sqrt_nonneg _

theorem sq_vnorm (v : Vec) : vnorm v ^ 2 = sqnorm v :=
  Real.sq_sqrt (sqnorm_nonneg v)

theorem sqnorm_map_mul (c : ℝ) (v : Vec) :
    sqnorm (v.map (fun x => c * x)) = c ^ 2 * sqnorm v := by
  induction v with
  | nil => simp [sqnorm_nil]
  | cons a t ih => simp only [List.map_cons, sqnorm_cons, ih]; ring

theorem vnorm_map_mul (c : ℝ) (v : Vec) :
    vnorm (v.map (fun x => c * x)) = |c| * vnorm v := by
  unfold vnorm
  rw [sqnorm_map_mul, Real.sqrt_mul (sq_nonneg c), Real.sqrt_sq_eq_abs]

theorem vsub_self_list (v : Vec) : vsub v v = List.replicate v.length 0 := by
  induction v with
  | nil => rfl
  | cons a t ih =>
      simp only [List.length_cons, List.replicate_succ]
      show (a - a) :: vsub t t = 0 :: List.replicate t.length 0
      rw [sub_self, ih]

theorem sqnorm_replicate_zero (n : ℕ) : sqnorm (List.replicate n 0) = 0 := by
  induction n with
  | zero => rfl
  | succ m ih => rw [List.replicate_succ, sqnorm_cons, ih]; norm_num

theorem vnorm_vsub_self (v : Vec) : vnorm (vsub v v) = 0 := by
  rw [vsub_self_list, vnorm, sqnorm_replicate_zero, Real.sqrt_zero]

/-! ### Claim C3 -/

/-- Claim C3: in every invocation of `follow_trajectory`, the raw joint
displacement is `-0.3 * gradient * time_step`; the applied displacement
always has Euclidean norm at most `MAX_SPEED = 0.3`, and whenever the raw
displacement's norm exceeds `0.3` the applied displacement is rescaled to
norm exactly `0.3` with its direction preserved (a positive multiple of the
raw displacement). -/
theorem claimC3_step_bounding (grad : Vec) (timeStep : ℝ) :
    vnorm (boundedDelta grad timeStep) ≤ 0.3 ∧
    (vnorm (rawDelta grad timeStep) > 0.3 →
      vnorm (boundedDelta grad timeStep) = 0.3 ∧
      ∃ c : ℝ, 0 < c ∧
        boundedDelta grad timeStep =
          (rawDelta grad timeStep).map (fun x => c * x)) := by
  by_cases h : vnorm (rawDelta grad timeStep) > 0.3
  · have hn : (0 : ℝ) < vnorm (rawDelta grad timeStep) := by linarith
    have hrw : boundedDelta grad timeStep =
        (rawDelta grad timeStep).map
          (fun x => 0.3 / vnorm (rawDelta grad timeStep) * x) := by
      unfold boundedDelta
      rw [if_pos h]
      congr 1
      funext x
      ring
    have hnorm : vnorm (boundedDelta grad timeStep) = 0.3 := by
      rw [hrw, vnorm_map_mul,
        abs_of_pos (div_pos (by norm_num) hn),
        div_mul_cancel₀ _ (ne_of_gt hn)]
    refine ⟨le_of_eq hnorm, fun _ => ⟨hnorm, ?_⟩⟩
    exact ⟨0.3 / vnorm (rawDelta grad timeStep), div_pos (by norm_num) hn, hrw⟩
  · have hrw : boundedDelta grad timeStep = rawDelta grad timeStep := by
      unfold boundedDelta
      rw [if_neg h]
    refine ⟨?_, fun hc => absurd hc h⟩
    rw [hrw]
    exact le_of_not_gt h

/-- Witness for claim C3 at the concrete gradient `[1]` and time step `5`:
the raw displacement `[-1.5]` exceeds the speed limit and is rescaled to
norm exactly `0.3`. -/
theorem claimC3_step_bounding_witness :
    vnorm (rawDelta [1] 5) > 0.3 ∧ vnorm (boundedDelta [1] 5) = 0.3 := by
  have hval : rawDelta [1] 5 = [-(1.5 : ℝ)] := by
    unfold rawDelta
    norm_num
  have hraw : vnorm (rawDelta [1] 5) = 1.5 := by
    rw [hval]
    unfold vnorm
    rw [sqnorm_cons, sqnorm_nil]
    rw [show (-(1.5 : ℝ)) ^ 2 + 0 = 1.5 ^ 2 by norm_num]
    exact Real.sqrt_sq (by norm_num)
  have hgt : vnorm (rawDelta [1] 5) > 0.3 := by rw [hraw]; norm_num
  exact ⟨hgt, ((claimC3_step_bounding [1] 5).2 hgt).1⟩

/-! ### Lemmas about resampling and batch extraction -/

theorem resample_length (xs : List Vec) (n : ℕ) :
    (resample xs n).length = n := by
  simp [resample]

theorem extractTrajPoints_length (f : Follower) (traj : List Vec)
    (pts : List (List Point)) (h : extractTrajPoints f traj = some pts) :
    pts.length = traj.length := by
  unfold extractTrajPoints at h
  split at h
  · obtain rfl := Option.some.inj h
    simp
  · split at h
    · obtain rfl := Option.some.inj h
      simp
    · cases h

/-! ### Claim C9 -/

/-- Claim C9: the cached per-waypoint clearance values
(`_trajectory_skeleton_control_points_distances`) are never read: for any
two values of this field, with all other state identical, `forward` and
`follow_trajectory` return identical results. -/
theorem claimC9_distances_never_read (f : Follower) (d1 d2 : List ℝ)
    (q grad hq : Vec) (timeStep : ℝ) (nanTest : ℝ → Bool) :
    Follower.forward { f with trajSkelDistances := d1 } q =
      Follower.forward { f with trajSkelDistances := d2 } q ∧
    follow_trajectory { f with trajSkelDistances := d1 } grad q hq timeStep
        nanTest =
      follow_trajectory { f with trajSkelDistances := d2 } grad q hq timeStep
        nanTest :=
  ⟨rfl, rfl⟩

/-! ### Claim C10 -/

/-- Claim C10: when no handshake clamp is configured (`H_handshake is
None`), the result of `follow_trajectory` does not depend on the human
configuration argument. -/
theorem claimC10_human_independent (f : Follower) (h : f.Hhandshake = none)
    (grad q hq1 hq2 : Vec) (timeStep : ℝ) (nanTest : ℝ → Bool) :
    follow_trajectory f grad q hq1 timeStep nanTest =
      follow_trajectory f grad q hq2 timeStep nanTest := by
  unfold follow_trajectory
  rw [h]

/-- Witness for claim C10: the concrete follower `baseFollower` has no
handshake clamp configured, and `follow_trajectory` returns the same result
on two different human configurations. -/
theorem claimC10_human_independent_witness :
    baseFollower.Hhandshake = none ∧
    follow_trajectory baseFollower [0] [0] [1] 1 (fun _ => false) =
      follow_trajectory baseFollower [0] [0] [2] 1 (fun _ => false) :=
  ⟨rfl, claimC10_human_independent baseFollower rfl [0] [0] [1] [2] 1
    (fun _ => false)⟩

/-! ### Claim C6 -/

/-- The final NaN guard of `follow_trajectory` (the `assert`): if the
guarded expression returns a result, no entry of the result satisfies the
NaN test. -/
theorem guard_no_nan (nanTest : ℝ → Bool) (t res : Vec)
    (h : (if t.any nanTest then none else some t) = some res) :
    ∀ x ∈ res, nanTest x = false := by
  by_cases hc : t.any nanTest
  · rw [if_pos hc] at h
    cases h
  · rw [if_neg hc] at h
    obtain rfl := Option.some.inj h
    rw [Bool.not_eq_true, List.any_eq_false] at hc
    intro x hx
    simpa using hc x hx

/-- Claim C6: every configuration returned by `follow_trajectory` contains
no NaN entry — whenever the call succeeds (the assertion does not fire),
every entry of the result fails the NaN test, whether or not a handshake
clamp is configured. -/
theorem claimC6_no_nan (f : Follower) (grad q hq : Vec) (timeStep : ℝ)
    (nanTest : ℝ → Bool) (res : Vec)
    (h : follow_trajectory f grad q hq timeStep nanTest = some res) :
    ∀ x ∈ res, nanTest x = false := by
  cases hH : f.Hhandshake with
  | none =>
      simp only [follow_trajectory, hH] at h
      exact guard_no_nan nanTest _ res h
  | some clamp =>
      simp only [follow_trajectory, hH] at h
      exact guard_no_nan nanTest _ res h

/-- Witness for claim C6: a successful concrete invocation of
`follow_trajectory`, and the conclusion of the claim for its result. -/
theorem claimC6_no_nan_witness :
    follow_trajectory baseFollower [0] [0] [] 1 (fun _ => false) =
      some [(0 : ℝ) + -(0.3 : ℝ) * 0 * 1] ∧
    ∀ x ∈ [(0 : ℝ) + -(0.3 : ℝ) * 0 * 1],
      (fun (_ : ℝ) => false) x = false := by
  have hraw : rawDelta [0] 1 = [-(0.3 : ℝ) * 0 * 1] := rfl
  have hnorm : vnorm (rawDelta [0] 1) = 0 := by
    rw [hraw]
    unfold vnorm
    rw [sqnorm_cons, sqnorm_nil]
    rw [show (-(0.3 : ℝ) * 0 * 1) ^ 2 + 0 = 0 by norm_num]
    exact Real.sqrt_zero
  have hbd : boundedDelta [0] 1 = [-(0.3 : ℝ) * 0 * 1] := by
    unfold boundedDelta
    rw [if_neg (by rw [hnorm]; norm_num)]
    exact hraw
  have heval : follow_trajectory baseFollower [0] [0] [] 1 (fun _ => false) =
      some [(0 : ℝ) + -(0.3 : ℝ) * 0 * 1] := by
    unfold follow_trajectory
    rw [hbd]
    rfl
  exact ⟨heval,
    claimC6_no_nan baseFollower [0] [0] [] 1 (fun _ => false) _ heval⟩

/-! ### Claim C1 -/

/-- Claim C1: for every configuration whose control points extract
successfully, the potential returned by `forward` is
`(1 + 10·attractive) / (1 + 2·clearance)` when obstacle avoidance is
enabled and `10·attractive` when it is disabled, where
`clearance = csdf(dense control points) - collision_threshold` and
`attractive` is the squared Euclidean distance from the configuration to
the selected target waypoint's configuration. -/
theorem claimC1_forward_potential (f : Follower) (q : Vec)
    (skel dense : List Point)
    (h : get_control_points f q = some (skel, dense)) :
    Follower.forward f q =
      some
        (if f.consider_obstacle_collisions then
          (1 + 10 * sqEuclid q
              (selectGoal f q skel
                (f.csdfForward dense - f.collision_threshold))) /
            (1 + 2 * (f.csdfForward dense - f.collision_threshold))
        else
          10 * sqEuclid q
            (selectGoal f q skel
              (f.csdfForward dense - f.collision_threshold))) := by
  unfold Follower.forward
  rw [h]
  show some _ = some _
  congr 1
  simp only [implicit_obstacles, attractive_potential, sqEuclid]
  rw [sq_vnorm]

/-- Witness for claim C1: on the concrete follower `followerC1` (obstacle
avoidance disabled, empty trajectory) the potential at `[0]` is zero, since
the goal falls back to the caller's own configuration. -/
theorem claimC1_forward_potential_witness :
    Follower.forward followerC1 [0] = some 0 := by
  have h : get_control_points followerC1 [0] =
      some (skeletonBase followerC1 [0],
        resample (skeletonBase followerC1 [0]) 1) := rfl
  rw [claimC1_forward_potential followerC1 [0] _ _ h]
  have hcons : followerC1.consider_obstacle_collisions = false := rfl
  rw [if_neg (by rw [hcons]; exact Bool.false_ne_true)]
  have hgoal : selectGoal followerC1 [0] (skeletonBase followerC1 [0])
      (followerC1.csdfForward (resample (skeletonBase followerC1 [0]) 1) -
        followerC1.collision_threshold) = [0] := rfl
  rw [hgoal]
  have hsq : sqEuclid [(0 : ℝ)] [(0 : ℝ)] = 0 := by
    unfold sqEuclid vsub
    rw [show List.zipWith (fun x y => x - y) [(0 : ℝ)] [(0 : ℝ)] =
      [(0 : ℝ) - 0] from rfl]
    rw [sqnorm_cons, sqnorm_nil]
    norm_num
  rw [hsq]
  norm_num

/-! ### Claim C7 -/

set_option maxRecDepth 8192 in
/-- Claim C7: a successful `update_trajectory` stores the input resampled
to exactly 500 waypoints by per-coordinate linear interpolation, repopulates
the cached skeleton control points (one set per waypoint, via the batch
extractor) and the cached clearance values (one scalar per waypoint), and
stores the `consider_obstacle_collisions` flag, leaving all cache arrays
index-aligned with the 500-point trajectory. -/
theorem claimC7_update_trajectory (f : Follower) (traj : List Vec)
    (flag : Bool) (f2 : Follower)
    (h : update_trajectory f traj flag = some f2) :
    f2.trajectory = resample traj 500 ∧
    f2.trajectory.length = 500 ∧
    extractTrajPoints f f2.trajectory = some f2.trajSkelPoints ∧
    f2.trajSkelPoints.length = 500 ∧
    f2.trajSkelDistances = f2.trajSkelPoints.map f.csdfComputeDistances ∧
    f2.trajSkelDistances.length = 500 ∧
    f2.consider_obstacle_collisions = flag := by
  simp only [update_trajectory] at h
  cases hx : extractTrajPoints f (resample traj 500) with
  | none => rw [hx] at h; cases h
  | some pts =>
      rw [hx] at h
      obtain rfl := Option.some.inj h
      have hlen : pts.length = 500 := by
        rw [extractTrajPoints_length f _ pts hx, resample_length]
      exact ⟨rfl, resample_length traj 500, hx, hlen, rfl, by simp [hlen],
        rfl⟩

/-- Witness for claim C7: a successful concrete `update_trajectory` call on
`baseFollower`, whose stored trajectory has exactly 500 waypoints. -/
theorem claimC7_update_trajectory_witness :
    (update_trajectory baseFollower [[0], [1]] true).map
      (fun g => g.trajectory.length) = some 500 := by
  obtain ⟨f2, h⟩ : ∃ g, update_trajectory baseFollower [[0], [1]] true =
      some g := ⟨_, rfl⟩
  rw [h, Option.map_some']
  exact congrArg some
    ((claimC7_update_trajectory baseFollower [[0], [1]] true f2 h).2.1)

/-! ### Characterization of boolean-mask indexing followed by `[-1]` -/

theorem zipWith_eq_map_zip {α β γ : Type} (g : α → β → γ) (xs : List α)
    (ys : List β) :
    List.zipWith g xs ys = (xs.zip ys).map (fun p => g p.1 p.2) := by
  induction xs generalizing ys with
  | nil => cases ys <;> rfl
  | cons x xs ih =>
      cases ys with
      | nil => rfl
      | cons y ys => simp [ih]

/-- Either every mask bit of `l` is false, or there is a *last* true bit: its
payload is the last element of the mask-filtered list, and every later bit
is false. -/
theorem lastFiltered {α : Type} (l : List (α × Bool)) :
    (∀ p ∈ l, p.2 = false) ∨
    ∃ j, ∃ hj : j < l.length, (l.get ⟨j, hj⟩).2 = true ∧
      ((l.filter (fun p => p.2)).map Prod.fst).getLast? =
        some (l.get ⟨j, hj⟩).1 ∧
      ∀ k, ∀ hk : k < l.length, j < k → (l.get ⟨k, hk⟩).2 = false := by
  induction l using List.reverseRecOn with
  | nil => left; intro p hp; simp at hp
  | append_singleton l a ih =>
      by_cases ha : a.2 = true
      · right
        have hlen : l.length < (l ++ [a]).length := by simp
        have hgetA : (l ++ [a]).get ⟨l.length, hlen⟩ = a := by
          simp only [List.get_eq_getElem]
          rw [List.getElem_append l.length hlen, dif_neg (by omega)]
          simp
        refine ⟨l.length, hlen, ?_, ?_, ?_⟩
        · rw [hgetA]; exact ha
        · rw [hgetA, List.filter_append]
          have hfa : List.filter (fun p => p.2) [a] = [a] := by
            simp [List.filter_cons, ha]
          rw [hfa, List.map_append]
          simp only [List.map_cons, List.map_nil]
          exact List.getLast?_concat _
        · intro k hk hlk
          exfalso
          simp only [List.length_append, List.length_cons,
            List.length_nil] at hk
          omega
      · have ha' : a.2 = false := Bool.eq_false_iff.mpr ha
        rcases ih with hall | ⟨j, hj, hjv, hlast, hafter⟩
        · left
          intro p hp
          rcases List.mem_append.mp hp with h1 | h2
          · exact hall p h1
          · simp only [List.mem_singleton] at h2
            rw [h2]; exact ha'
        · right
          have hj2 : j < (l ++ [a]).length := by
            simp only [List.length_append, List.length_cons, List.length_nil]
            omega
          have hgetj : (l ++ [a]).get ⟨j, hj2⟩ = l.get ⟨j, hj⟩ := by
            simp only [List.get_eq_getElem]
            rw [List.getElem_append j hj2, dif_pos hj]
          refine ⟨j, hj2, ?_, ?_, ?_⟩
          · rw [hgetj]; exact hjv
          · rw [hgetj, List.filter_append]
            have hfa : List.filter (fun p => p.2) [a] = [] := by
              simp [List.filter_cons, ha']
            rw [hfa, List.append_nil]
            exact hlast
          · intro k hk hlk
            by_cases hkl : k < l.length
            · have hgk : (l ++ [a]).get ⟨k, hk⟩ = l.get ⟨k, hkl⟩ := by
                simp only [List.get_eq_getElem]
                rw [List.getElem_append k hk, dif_pos hkl]
              rw [hgk]
              exact hafter k hkl hlk
            · have hgk : (l ++ [a]).get ⟨k, hk⟩ = a := by
                simp only [List.get_eq_getElem]
                rw [List.getElem_append k hk, dif_neg hkl]
                have hkeq : k = l.length := by
                  simp only [List.length_append, List.length_cons,
                    List.length_nil] at hk
                  omega
                subst hkeq
                simp
              rw [hgk]
              exact ha'

theorem validMask_length (f : Follower) (skel : List Point) (s : ℝ) :
    (validMask f skel s).length = f.trajSkelPoints.length := by
  simp [validMask]

theorem get_eq_getD {α : Type} (l : List α) (i : ℕ) (h : i < l.length)
    (d : α) : l.get ⟨i, h⟩ = l.getD i d := by
  simp [List.getD_eq_getElem?_getD, List.getElem?_eq_getElem h]

theorem zip_getD {α β : Type} (xs : List α) (ys : List β) (i : ℕ) (dx : α)
    (dy : β) (hx : i < xs.length) (hy : i < ys.length) :
    (xs.zip ys).getD i (dx, dy) = (xs.getD i dx, ys.getD i dy) := by
  induction xs generalizing ys i with
  | nil => exact absurd hx (by simp)
  | cons x xs ih =>
      cases ys with
      | nil => exact absurd hy (by simp)
      | cons y ys =>
          cases i with
          | zero => rfl
          | succ n =>
              simp only [List.zip_cons_cons, List.getD_cons_succ]
              exact ih _ _ (by simpa using hx) (by simpa using hy)

theorem validMask_getD_iff (f : Follower) (skel : List Point) (sdfValue : ℝ)
    (i : ℕ) (hi : i < f.trajSkelPoints.length) :
    ((validMask f skel sdfValue).getD i false = true ↔
      Qualifies f skel sdfValue i) := by
  have hW : (validMask f skel sdfValue).getD i false =
      (if f.consider_obstacle_collisions then
        (List.zipWith (fun a b => vnorm (vsub a b))
          (f.trajSkelPoints.getD i []) skel).all
            (fun d => decide (d ≤ sdfValue + 0.05))
      else
        (List.zipWith (fun a b => vnorm (vsub a b))
          (f.trajSkelPoints.getD i []) skel).all
            (fun d => decide (d ≤ (0.1 : ℝ)))) := by
    unfold validMask
    simp [List.getD_eq_getElem?_getD, List.getElem?_map,
      List.getElem?_eq_getElem hi]
  rw [hW]
  unfold Qualifies
  cases hc : f.consider_obstacle_collisions
  · simp only [hc, Bool.false_eq_true, if_false]
    rw [zipWith_eq_map_zip]
    simp only [List.all_map, List.all_eq_true, Function.comp,
      decide_eq_true_eq, List.getD_eq_getElem?_getD, Prod.forall,
      List.mem_map, forall_exists_index, and_imp, Prod.mk.injEq]
    constructor
    · intro h a b hmem
      exact h _ a b hmem rfl
    · intro h x a b hmem hx
      rw [← hx]
      exact h a b hmem
  · simp only [hc, if_true]
    rw [zipWith_eq_map_zip]
    simp only [List.all_map, List.all_eq_true, Function.comp,
      decide_eq_true_eq, List.getD_eq_getElem?_getD, Prod.forall,
      List.mem_map, forall_exists_index, and_imp, Prod.mk.injEq]
    constructor
    · intro h a b hmem
      exact h _ a b hmem rfl
    · intro h x a b hmem hx
      rw [← hx]
      exact h a b hmem

/-! ### Claim C2 -/

/-- Claim C2: target selection keeps exactly the cached waypoints all of
whose cached skeleton control points lie within `clearance + 0.05` of the
caller's skeleton points when obstacle avoidance is enabled (`0.1` when
disabled); the goal is the last qualifying waypoint in trajectory order,
and when no waypoint qualifies the goal is the caller's own configuration,
making the attractive potential zero. -/
theorem claimC2_target_selection (f : Follower) (state : Vec)
    (skel : List Point) (sdfValue : ℝ)
    (hlen : f.trajectory.length = f.trajSkelPoints.length) :
    (∀ i, i < f.trajectory.length →
      ((validMask f skel sdfValue).getD i false = true ↔
        Qualifies f skel sdfValue i)) ∧
    ((∃ i, i < f.trajectory.length ∧ Qualifies f skel sdfValue i) →
      ∃ i, i < f.trajectory.length ∧ Qualifies f skel sdfValue i ∧
        selectGoal f state skel sdfValue = f.trajectory.getD i [] ∧
        ∀ j, i < j → j < f.trajectory.length →
          ¬ Qualifies f skel sdfValue j) ∧
    ((∀ i, i < f.trajectory.length → ¬ Qualifies f skel sdfValue i) →
      selectGoal f state skel sdfValue = state ∧
      attractive_potential f state skel sdfValue = 0) := by
  have hmaskIff : ∀ i, i < f.trajectory.length →
      ((validMask f skel sdfValue).getD i false = true ↔
        Qualifies f skel sdfValue i) := by
    intro i hi
    exact validMask_getD_iff f skel sdfValue i (hlen ▸ hi)
  have hLlen : (maskedTraj f skel sdfValue).length = f.trajectory.length := by
    unfold maskedTraj
    rw [List.length_zip, validMask_length, ← hlen, min_self]
  have hsel : selectGoal f state skel sdfValue =
      (((maskedTraj f skel sdfValue).filter (fun p => p.2)).map
        Prod.fst).getLast?.getD state := rfl
  have hgetL : ∀ i (hi : i < (maskedTraj f skel sdfValue).length),
      (maskedTraj f skel sdfValue).get ⟨i, hi⟩ =
        (f.trajectory.getD i [], (validMask f skel sdfValue).getD i false) := by
    intro i hi
    have hiT : i < f.trajectory.length := by rw [← hLlen]; exact hi
    have hiM : i < (validMask f skel sdfValue).length := by
      rw [validMask_length, ← hlen]; exact hiT
    rw [get_eq_getD _ i hi (([] : Vec), false)]
    unfold maskedTraj
    exact zip_getD _ _ i [] false hiT hiM
  rcases lastFiltered (maskedTraj f skel sdfValue) with hall | hsome
  · -- every mask bit is false: no waypoint qualifies
    have hnoQ : ∀ i, i < f.trajectory.length →
        ¬ Qualifies f skel sdfValue i := by
      intro i hi hQ
      have hiL : i < (maskedTraj f skel sdfValue).length := by
        rw [hLlen]; exact hi
      have hmem := hall ((maskedTraj f skel sdfValue).get ⟨i, hiL⟩)
        (List.get_mem _ _ _)
      rw [hgetL i hiL] at hmem
      simp only at hmem
      rw [(hmaskIff i hi).mpr hQ] at hmem
      cases hmem
    have hempty : (maskedTraj f skel sdfValue).filter (fun p => p.2) = [] := by
      rw [List.filter_eq_nil_iff]
      intro p hp
      rw [hall p hp]
      simp
    have hgoal : selectGoal f state skel sdfValue = state := by
      rw [hsel, hempty]
      rfl
    refine ⟨hmaskIff, ?_, ?_⟩
    · rintro ⟨i, hi, hQ⟩
      exact absurd hQ (hnoQ i hi)
    · intro _
      refine ⟨hgoal, ?_⟩
      unfold attractive_potential
      rw [hgoal, vnorm_vsub_self]
      norm_num
  · obtain ⟨j, hj, hjv, hlast, hafter⟩ := hsome
    have hjT : j < f.trajectory.length := by rw [← hLlen]; exact hj
    have hQj : Qualifies f skel sdfValue j := by
      apply (hmaskIff j hjT).mp
      have hv := hjv
      rw [hgetL j hj] at hv
      exact hv
    have hnoAfter : ∀ k, j < k → k < f.trajectory.length →
        ¬ Qualifies f skel sdfValue k := by
      intro k hjk hk hQ
      have hkL : k < (maskedTraj f skel sdfValue).length := by
        rw [hLlen]; exact hk
      have hfalse := hafter k hkL hjk
      rw [hgetL k hkL] at hfalse
      simp only at hfalse
      rw [(hmaskIff k hk).mpr hQ] at hfalse
      cases hfalse
    have hgoal : selectGoal f state skel sdfValue =
        f.trajectory.getD j [] := by
      rw [hsel, hlast, hgetL j hj]
      rfl
    refine ⟨hmaskIff, ?_, ?_⟩
    · intro _
      exact ⟨j, hjT, hQj, hgoal, hnoAfter⟩
    · intro hnone
      exact absurd hQj (hnone j hjT)

/-- Witness for claim C2 on the concrete follower `followerC2`: no cached
waypoint qualifies (every cached skeleton point is `sqrt 48` away from the
probe point, beyond the `0.1` bound), so the goal falls back to the
caller's configuration and the attractive potential is zero. -/
theorem claimC2_target_selection_witness :
    selectGoal followerC2 [9] [[5, 5, 5]] 0 = [9] ∧
    attractive_potential followerC2 [9] [[5, 5, 5]] 0 = 0 := by
  have hdist : vnorm (vsub [(9 : ℝ), 9, 9] [(5 : ℝ), 5, 5]) =
      Real.sqrt 48 := by
    have hv : vsub [(9 : ℝ), 9, 9] [(5 : ℝ), 5, 5] = [(4 : ℝ), 4, 4] := by
      unfold vsub
      norm_num
    rw [hv]
    unfold vnorm
    rw [show sqnorm [(4 : ℝ), 4, 4] = 48 by
      rw [sqnorm_cons, sqnorm_cons, sqnorm_cons, sqnorm_nil]; norm_num]
  have hgt : (0.1 : ℝ) < Real.sqrt 48 :=
    (Real.lt_sqrt (by norm_num)).mpr (by norm_num)
  have hno : ∀ i, i < followerC2.trajectory.length →
      ¬ Qualifies followerC2 [[5, 5, 5]] 0 i := by
    intro i hi hQ
    have hi2 : i = 0 ∨ i = 1 := by
      have h2 : i < 2 := hi
      omega
    have hmem : ([(9 : ℝ), 9, 9], [(5 : ℝ), 5, 5]) ∈
        (followerC2.trajSkelPoints.getD i []).zip [[(5 : ℝ), 5, 5]] := by
      rcases hi2 with h0 | h1
      · subst h0
        exact List.mem_singleton.mpr rfl
      · subst h1
        exact List.mem_singleton.mpr rfl
    have hle := hQ _ hmem
    rw [if_neg (by
      rw [show followerC2.consider_obstacle_collisions = false from rfl]
      exact Bool.false_ne_true)] at hle
    rw [hdist] at hle
    linarith
  exact (claimC2_target_selection followerC2 [9] [[5, 5, 5]] 0 rfl).2.2 hno

/-! ### Claim C4 -/

/-- Counterexample to claim C4 as stated: on `followerC4` (whose
base-to-world transform is a unit translation along x and whose forward
kinematics returns the identity pose) the skeleton extractor returns the
robot-base-frame translation `[0, 0, 0]`, not the world-frame translation
`[1, 0, 0]` that the claim prescribes. -/
theorem claimC4_counterexample :
    get_skeleton_control_points followerC4 [0] = some [[(0 : ℝ), 0, 0]] ∧
    specSkeletonWorld followerC4 [0] = [[(1 : ℝ), 0, 0]] ∧
    get_skeleton_control_points followerC4 [0] ≠
      some (specSkeletonWorld followerC4 [0]) := by
  have h1 : get_skeleton_control_points followerC4 [0] =
      some [[(0 : ℝ), 0, 0]] := by
    have hs : get_skeleton_control_points followerC4 [0] =
        some [translationOf idMat] := rfl
    rw [hs]
    simp [translationOf, idMat]
  have h2 : specSkeletonWorld followerC4 [0] = [[(1 : ℝ), 0, 0]] := by
    have hs : specSkeletonWorld followerC4 [0] =
        [translationOf (matMul (transMat 1 0 0) idMat)] := rfl
    rw [hs]
    simp [translationOf, matMul, transMat, idMat, Fin.sum_univ_four]
  refine ⟨h1, h2, ?_⟩
  rw [h1, h2]
  intro hc
  have hinj := Option.some.inj hc
  simp at hinj

/-- Claim C4, amended: for every configuration, in skeleton (no geometry
description) mode with no object attached, the extracted skeleton control
point for link `i` equals the translation component of link `i`'s
forward-kinematics pose in the *robot-base* frame; the base-to-world
transform is not applied on this path (unlike `compute_ee_pose` and the
mesh path). -/
theorem claimC4_amended (f : Follower) (q : Vec)
    (h : f.graspedGraspT = none) (i : ℕ) (hi : i < f.linkSkeleton.length) :
    get_skeleton_control_points f q = some (skeletonBase f q) ∧
    (skeletonBase f q).getD i [] =
      translationOf (f.fkLink q (f.linkSkeleton.getD i noLink)) := by
  constructor
  · unfold get_skeleton_control_points
    rw [h]
  · unfold skeletonBase
    simp [List.getD_eq_getElem?_getD, List.getElem?_map,
      List.getElem?_eq_getElem hi]

/-- Witness for the amended claim C4 at the concrete follower
`baseFollower`, configuration `[0]`, link index `0`. -/
theorem claimC4_amended_witness :
    get_skeleton_control_points baseFollower [0] =
      some (skeletonBase baseFollower [0]) ∧
    (skeletonBase baseFollower [0]).getD 0 [] =
      translationOf (baseFollower.fkLink [0]
        (baseFollower.linkSkeleton.getD 0 noLink)) :=
  claimC4_amended baseFollower [0] rfl 0 (by
    rw [show baseFollower.linkSkeleton = [linkA] from rfl]
    simp)

/-! ### Claim C5 -/

/-- Counterexample to claim C5 as stated: attaching an *empty* point cloud
to the concrete mesh-mode follower `meshFollower` returns success (`True`,
not failure) and overwrites the prior attachment state (the stored grasp
offset changes from `none` to the supplied transform). -/
theorem claimC5_counterexample :
    meshFollower.graspedGraspT = none ∧
    (attach_to_gripper meshFollower [] pcdType idMat idMat).map
      (fun r => (r.2, r.1.graspedGraspT)) = some (true, some idMat) :=
  ⟨rfl, rfl⟩

/-- Claim C5, amended: `attach_to_gripper` performs no validation of the
geometry: for object type `"pcd"` — including an empty point set and an
arbitrary (possibly non-rigid) offset — whenever the cache recompute
succeeds the operation returns success and overwrites the stored attachment
state with the supplied offset and transformed point set. -/
theorem claimC5_amended (f : Follower) (geom : List Point) (T1 T2 : Mat4)
    (f2 : Follower) (b : Bool)
    (h : attach_to_gripper f geom pcdType T1 T2 = some (f2, b)) :
    b = true ∧
    f2.graspedGraspT = some T1 ∧
    f2.graspedNominal =
      some (geom.map (fun p => matMul T2 (pointTransform p))) := by
  simp only [attach_to_gripper, eq_self_iff_true, if_true] at h
  rw [Option.map_eq_some'] at h
  obtain ⟨pts, hpts, heq⟩ := h
  injection heq with hf hb
  subst hf
  subst hb
  exact ⟨rfl, rfl, rfl⟩

/-- Witness for the amended claim C5: attaching an empty point cloud to
`meshFollower` succeeds and stores the supplied offset and the (empty)
transformed point set. -/
theorem claimC5_amended_witness :
    attach_to_gripper meshFollower [] pcdType idMat idMat =
      some (attachedMeshFollower, true) ∧
    attachedMeshFollower.graspedGraspT = some idMat ∧
    attachedMeshFollower.graspedNominal = some [] := by
  have h : attach_to_gripper meshFollower [] pcdType idMat idMat =
      some (attachedMeshFollower, true) := rfl
  have h2 := claimC5_amended meshFollower [] idMat idMat
    attachedMeshFollower true h
  exact ⟨h, h2.2.1, h2.2.2⟩

/-! ### Claim C8 -/

theorem get_control_points_congr (f g : Follower)
    (h1 : f.controlPoints = g.controlPoints)
    (h2 : f.linkSkeleton = g.linkSkeleton)
    (h3 : f.fkLink = g.fkLink)
    (h4 : f.worldToRobotBase = g.worldToRobotBase)
    (h5 : f.controlPointsNumber = g.controlPointsNumber)
    (h6 : f.graspedGraspT = g.graspedGraspT)
    (h7 : f.graspedNominal = g.graspedNominal) (q : Vec) :
    get_control_points f q = get_control_points g q := by
  unfold get_control_points get_mesh_control_points meshBasePoints
    get_skeleton_control_points skeletonBase
  rw [h1, h2, h3, h4, h5, h6, h7]

theorem extractTrajPoints_congr (f g : Follower)
    (h1 : f.controlPoints = g.controlPoints)
    (h2 : f.linkSkeleton = g.linkSkeleton)
    (h3 : f.fkLink = g.fkLink)
    (h4 : f.worldToRobotBase = g.worldToRobotBase)
    (h6 : f.graspedGraspT = g.graspedGraspT)
    (h7 : f.graspedNominal = g.graspedNominal) (traj : List Vec) :
    extractTrajPoints f traj = extractTrajPoints g traj := by
  unfold extractTrajPoints get_mesh_control_points meshBasePoints
    skeletonBase
  rw [h1, h2, h3, h4, h6, h7]

/-- Claim C8: starting from a state with no attached object, `attach`
followed by `detach` clears both attachment fields, performs the same
trajectory-cache recomputation as `attach` does, and makes control-point
extraction identical to the pre-attach extraction — in particular the
skeleton and dense control-point counts return to their pre-attach
values. -/
theorem claimC8_attach_detach_roundtrip (f : Follower)
    (hg1 : f.graspedGraspT = none) (hg2 : f.graspedNominal = none)
    (geom : List Point) (objectType : String) (T1 T2 : Mat4)
    (name : String) (fa : Follower) (b1 : Bool)
    (hA : attach_to_gripper f geom objectType T1 T2 = some (fa, b1))
    (fd : Follower) (b2 : Bool)
    (hD : detach_from_gripper fa name = some (fd, b2)) :
    fd.graspedGraspT = none ∧ fd.graspedNominal = none ∧
    extractTrajPoints fd fd.trajectory = some fd.trajSkelPoints ∧
    fd.trajSkelDistances = fd.trajSkelPoints.map f.csdfComputeDistances ∧
    (∀ q, get_control_points fd q = get_control_points f q) ∧
    (∀ q skel dense skel2 dense2,
      get_control_points f q = some (skel, dense) →
      get_control_points fd q = some (skel2, dense2) →
      skel2.length = skel.length ∧ dense2.length = dense.length) := by
  by_cases hc : objectType = pcdType
  · simp only [attach_to_gripper] at hA
    rw [if_pos hc] at hA
    rw [Option.map_eq_some'] at hA
    obtain ⟨pts, hpts, heqA⟩ := hA
    injection heqA with hfa hb1
    subst hfa
    simp only [detach_from_gripper] at hD
    rw [Option.map_eq_some'] at hD
    obtain ⟨pts2, hpts2, heqD⟩ := hD
    injection heqD with hfd hb2
    have h5 : ∀ q, get_control_points fd q = get_control_points f q := by
      intro q
      rw [← hfd]
      apply get_control_points_congr <;>
        first
          | rfl
          | exact hg1.symm
          | exact hg2.symm
    refine ⟨by rw [← hfd], by rw [← hfd], by rw [← hfd]; exact hpts2,
      by rw [← hfd], h5, ?_⟩
    intro q skel dense skel2 dense2 hq1 hq2
    rw [h5 q, hq1] at hq2
    have hinj := Option.some.inj hq2
    injection hinj with hskel hdense
    subst hskel
    subst hdense
    exact ⟨rfl, rfl⟩
  · simp only [attach_to_gripper] at hA
    rw [if_neg hc] at hA
    rw [Option.map_eq_some'] at hA
    obtain ⟨pts, hpts, heqA⟩ := hA
    injection heqA with hfa hb1
    subst hfa
    simp only [detach_from_gripper] at hD
    rw [Option.map_eq_some'] at hD
    obtain ⟨pts2, hpts2, heqD⟩ := hD
    injection heqD with hfd hb2
    have h5 : ∀ q, get_control_points fd q = get_control_points f q := by
      intro q
      rw [← hfd]
      apply get_control_points_congr <;>
        first
          | rfl
          | exact hg1.symm
          | exact hg2.symm
    refine ⟨by rw [← hfd], by rw [← hfd], by rw [← hfd]; exact hpts2,
      by rw [← hfd], h5, ?_⟩
    intro q skel dense skel2 dense2 hq1 hq2
    rw [h5 q, hq1] at hq2
    have hinj := Option.some.inj hq2
    injection hinj with hskel hdense
    subst hskel
    subst hdense
    exact ⟨rfl, rfl⟩

/-- Witness for claim C8: on the concrete mesh-mode follower
`meshFollower`, attaching the one-point cloud `[[1, 2, 3]]` and detaching
again clears the attachment and restores extraction to the pre-attach
behaviour. -/
theorem claimC8_attach_detach_roundtrip_witness :
    attach_to_gripper meshFollower [[1, 2, 3]] pcdType idMat idMat =
      some (attachedObjFollower, true) ∧
    detach_from_gripper attachedObjFollower linkA =
      some (detachedFollower, true) ∧
    detachedFollower.graspedGraspT = none ∧
    detachedFollower.graspedNominal = none ∧
    (∀ q, get_control_points detachedFollower q =
      get_control_points meshFollower q) := by
  have hA : attach_to_gripper meshFollower [[1, 2, 3]] pcdType idMat idMat =
      some (attachedObjFollower, true) := rfl
  have hD : detach_from_gripper attachedObjFollower linkA =
      some (detachedFollower, true) := rfl
  have h := claimC8_attach_detach_roundtrip meshFollower rfl rfl [[1, 2, 3]]
    pcdType idMat idMat linkA attachedObjFollower true hA detachedFollower
    true hD
  exact ⟨hA, hD, h.1, h.2.1, h.2.2.2.2.1⟩
